import Mathlib

/-!
Verification of the Task Resource Service backend (src/backend/server.js).

The backend is an Express application over a PostgreSQL pool with
  - a pool configuration whose `ssl` field depends on `NODE_ENV`,
  - a startup `CREATE TABLE IF NOT EXISTS tasks (...)` statement whose
    failure is caught and only logged,
  - `GET /api/tasks` running `SELECT * FROM tasks ORDER BY created_at DESC`,
  - `POST /api/tasks` destructuring `title`/`description` from the body and
    running a parameterized `INSERT ... RETURNING *`.

We embed the data model (the `tasks` table with its column constraints),
the two route handlers, the startup sequence and the pool configuration as
executable Lean definitions, and prove the specified properties about them.
-/

namespace TaskManager

/-- A persisted row of the `tasks` table.  `description` is a nullable TEXT
column, hence `Option String`; `title` is `VARCHAR(255) NOT NULL`, hence a
plain `String` (the length bound is enforced at insertion); `created_at` is
the server clock value at insertion time, modelled as `Nat`. -/
structure Task where
  id : Nat
  title : String
  description : Option String
  completed : Bool
  created_at : Nat
deriving Repr, DecidableEq

/-- The state of an existing `tasks` table: its rows in insertion order and
the next value of the `id` SERIAL sequence. -/
structure TableState where
  rows : List Task
  nextId : Nat
deriving Repr, DecidableEq

/-- The store state: `none` when the `tasks` table does not exist yet,
`some t` when it exists with state `t`. -/
abbrev DbState : Type := Option TableState

/-- The literal text of the startup statement in server.js. -/
def createTablesQuery : String :=
  "CREATE TABLE IF NOT EXISTS tasks (id SERIAL PRIMARY KEY, title VARCHAR(255) NOT NULL, description TEXT, completed BOOLEAN DEFAULT FALSE, created_at TIMESTAMP DEFAULT CURRENT_TIMESTAMP);"

/-- A freshly created `tasks` table: no rows, SERIAL sequence at 1. -/
def freshTable : TableState := { rows := [], nextId := 1 }

/-- Semantics of executing `createTablesQuery` against the store: with
`IF NOT EXISTS` the statement never fails; it creates the empty table when
absent and leaves an existing table (and all its rows) untouched. -/
def runCreateTablesQuery (db : DbState) : Except String DbState :=
  match db with
  | none => .ok (some freshTable)
  | some t => .ok (some t)

/-- Error message of the `NOT NULL` constraint on `title`. -/
def notNullViolationMsg : String :=
  "null value in column title of relation tasks violates not-null constraint"

/-- Error message of the `VARCHAR(255)` length constraint on `title`. -/
def tooLongMsg : String :=
  "value too long for type character varying(255)"

/-- Semantics of `INSERT INTO tasks (title, description) VALUES ($1, $2)
RETURNING *` against the schema of `createTablesQuery`: a NULL `title` (the
driver sends NULL for an absent or null JSON field) violates the NOT NULL
constraint, a `title` longer than 255 code units violates the VARCHAR(255)
bound, and otherwise one row is appended with server-assigned `id` (the
SERIAL sequence) and `created_at` (the clock `now`), `completed` defaulted
to FALSE, and that row is returned. -/
def insertTask (db : TableState) (now : Nat) (title : Option String)
    (description : Option String) : Except String (Task × TableState) :=
  match title with
  | none => .error notNullViolationMsg
  | some t =>
    if 255 < t.length then .error tooLongMsg
    else
      let task : Task :=
        { id := db.nextId, title := t, description := description,
          completed := false, created_at := now }
      .ok (task, { rows := db.rows ++ [task], nextId := db.nextId + 1 })

/-- A parsed JSON request body.  server.js destructures only `title` and
`description`; any other members of the JSON object are collected in
`extra` and (as we prove) never read. -/
structure RequestBody where
  title : Option String
  description : Option String
  extra : List (String × String)
deriving Repr, DecidableEq

/-- The JSON value sent in an HTTP response. -/
inductive ResponseBody where
  | tasks (l : List Task)
  | task (t : Option Task)
  | error (m : String)
  | health (s : String)
deriving Repr, DecidableEq

/-- An HTTP response: status code and JSON body. -/
structure Response where
  status : Nat
  body : ResponseBody
deriving Repr, DecidableEq

/-- The statement text of `GET /api/tasks` in server.js. -/
def getTasksStatement : String := "SELECT * FROM tasks ORDER BY created_at DESC"

/-- The statement text of `POST /api/tasks` in server.js. -/
def postTasksStatement : String :=
  "INSERT INTO tasks (title, description) VALUES ($1, $2) RETURNING *"

/-- The bound parameter vector `[title, description]` that `POST /api/tasks`
passes alongside `postTasksStatement`. -/
def postTasksParams (body : RequestBody) : List (Option String) :=
  [body.title, body.description]

/-- State-level semantics of the `POST /api/tasks` handler: run the insert
at clock `now`; on success respond 201 with the returned row, on failure
respond 500 with the raw store error message and leave the table unchanged. -/
def createTask (db : TableState) (now : Nat) (body : RequestBody) :
    Response × TableState :=
  match insertTask db now body.title body.description with
  | .ok (t, db2) => ({ status := 201, body := .task (some t) }, db2)
  | .error e => ({ status := 500, body := .error e }, db)

/-- The result rows of `SELECT * FROM tasks ORDER BY created_at DESC` are
weakly sorted: each row's `created_at` is at least the next one's. -/
def sortedByCreatedAtDesc (l : List Task) : Prop :=
  l.Pairwise (fun a b => b.created_at ≤ a.created_at)

instance (l : List Task) : Decidable (sortedByCreatedAtDesc l) :=
  List.instDecidablePairwise l

/-- Semantics of `GET /api/tasks`: the store may return the rows in any
order consistent with `ORDER BY created_at DESC` (the statement has no
tiebreaker column), so a valid result is any permutation of the table's
rows that is weakly sorted by `created_at` descending. -/
def listTasksOutput (db : TableState) (out : List Task) : Prop :=
  out.Perm db.rows ∧ sortedByCreatedAtDesc out

instance (db : TableState) (out : List Task) : Decidable (listTasksOutput db out) :=
  instDecidableAnd

/-- Oracle-level run of the `GET /api/tasks` handler: `exec` is the store,
mapping a statement text and parameter vector to either result rows or an
error.  Returns the HTTP response together with the trace of issued
statements.  The handler issues exactly one statement and maps a failure to
a 500 response carrying the raw error message. -/
def runGetTasks (exec : String → List (Option String) → Except String (List Task)) :
    Response × List (String × List (Option String)) :=
  match exec getTasksStatement [] with
  | .ok rows => ({ status := 200, body := .tasks rows }, [(getTasksStatement, [])])
  | .error e => ({ status := 500, body := .error e }, [(getTasksStatement, [])])

/-- Oracle-level run of the `POST /api/tasks` handler: issue the fixed
insert statement with `[title, description]` bound; on success respond 201
with `result.rows[0]`, on failure respond 500 with the raw error message. -/
def runPostTasks (exec : String → List (Option String) → Except String (List Task))
    (body : RequestBody) : Response × List (String × List (Option String)) :=
  match exec postTasksStatement (postTasksParams body) with
  | .ok rows => ({ status := 201, body := .task rows.head? }, [(postTasksStatement, postTasksParams body)])
  | .error e => ({ status := 500, body := .error e }, [(postTasksStatement, postTasksParams body)])

/-- The `ssl` field of the pg `Pool` options: `none` models `ssl: false`
(no TLS), `some o` models an ssl options object. -/
structure SslOptions where
  rejectUnauthorized : Bool
deriving Repr, DecidableEq

/-- The pool `ssl` configuration in server.js:
`NODE_ENV === "production" ? { rejectUnauthorized: false } : false`. -/
def poolSsl (nodeEnv : String) : Option SslOptions :=
  if nodeEnv == "production" then some { rejectUnauthorized := false } else none

/-- Whether a pool `ssl` configuration uses TLS at all. -/
def usesTls (c : Option SslOptions) : Bool := c.isSome

/-- Whether a pool `ssl` configuration requires certificate validation:
TLS must be on and `rejectUnauthorized` must not be disabled. -/
def requiresCertValidation (c : Option SslOptions) : Bool :=
  match c with
  | some o => o.rejectUnauthorized
  | none => false

/-- Observable outcome of process start in server.js. -/
structure BootOutcome where
  listenerStarted : Bool
  propagatedError : Option String
  logs : List String
deriving Repr, DecidableEq

/-- The startup sequence of server.js: `pool.query(createTablesQuery)` with
`.then` logging success and `.catch` logging the error; `app.listen` is
called unconditionally afterwards, and no error escapes the catch. -/
def boot (initResult : Except String Unit) : BootOutcome :=
  { listenerStarted := true,
    propagatedError := none,
    logs :=
      match initResult with
      | .ok _ => ["Database tables ready"]
      | .error e => ["Database setup error: " ++ e] }

/-- Well-formedness of a table state: every row's `id` is below the SERIAL
sequence value, row ids are pairwise distinct, and every title satisfies
the VARCHAR(255) bound. -/
def WF (db : TableState) : Prop :=
  (∀ r ∈ db.rows, r.id < db.nextId) ∧
  db.rows.Pairwise (fun a b => a.id ≠ b.id) ∧
  (∀ r ∈ db.rows, r.title.length ≤ 255)

instance (db : TableState) : Decidable (WF db) := by
  unfold WF
  infer_instance

theorem wf_freshTable : WF freshTable := by
  refine ⟨?_, ?_, ?_⟩ <;> simp [freshTable, WF]

/-- Helper: on a non-NULL title within the VARCHAR(255) bound, `createTask`
succeeds, appending exactly the fully populated row and answering 201 with
that row. -/
theorem createTask_eq_of_valid (db : TableState) (now : Nat) (body : RequestBody)
    (t : String) (ht : body.title = some t) (hlen : t.length ≤ 255) :
    createTask db now body =
      ({ status := 201,
         body := .task (some { id := db.nextId, title := t,
                               description := body.description,
                               completed := false, created_at := now }) },
       { rows := db.rows ++ [{ id := db.nextId, title := t,
                               description := body.description,
                               completed := false, created_at := now }],
         nextId := db.nextId + 1 }) := by
  simp [createTask, insertTask, ht, Nat.not_lt.mpr hlen]

/-- C3: for every request with a valid title (non-NULL and within the
VARCHAR(255) bound), `POST /api/tasks` inserts exactly one new row, with
server-assigned `id` (the SERIAL sequence value) and `created_at` (the
server clock), `completed` defaulted to `false`, and responds 201 with the
fully populated persisted Task as the body. -/
theorem c3_createTask_inserts_one_row (db : TableState) (now : Nat)
    (body : RequestBody) (t : String) (ht : body.title = some t)
    (hlen : t.length ≤ 255) :
    createTask db now body =
      ({ status := 201,
         body := .task (some { id := db.nextId, title := t,
                               description := body.description,
                               completed := false, created_at := now }) },
       { rows := db.rows ++ [{ id := db.nextId, title := t,
                               description := body.description,
                               completed := false, created_at := now }],
         nextId := db.nextId + 1 }) ∧
    (createTask db now body).2.rows.length = db.rows.length + 1 := by
  have h := createTask_eq_of_valid db now body t ht hlen
  exact ⟨h, by rw [h]; simp⟩

/-- Witness for C3 at the spec's end-to-end scenario 1:
`POST /api/tasks` with title "Buy milk" and empty description against the
fresh table at clock 7. -/
theorem c3_witness :
    (⟨some "Buy milk", some "", []⟩ : RequestBody).title = some "Buy milk" ∧
    ("Buy milk").length ≤ 255 ∧
    createTask freshTable 7 ⟨some "Buy milk", some "", []⟩ =
      ({ status := 201,
         body := .task (some ⟨1, "Buy milk", some "", false, 7⟩) },
       { rows := [⟨1, "Buy milk", some "", false, 7⟩], nextId := 2 }) :=
  ⟨rfl, by decide,
    (c3_createTask_inserts_one_row freshTable 7 ⟨some "Buy milk", some "", []⟩
      "Buy milk" rfl (by decide)).1⟩

/-- C4 counterexample: with `NODE_ENV = "production"` the pool is configured
with `ssl: { rejectUnauthorized: false }`, so certificate validation on the
store connection is NOT required in the production posture, contradicting
the claim that it is. -/
theorem c4_counterexample :
    requiresCertValidation (poolSsl "production") = false := by decide

/-- C4 amended: the `NODE_ENV` flag selects whether TLS is used on the store
connection at all — production enables TLS but with certificate validation
explicitly disabled (`rejectUnauthorized: false`); every other value
disables TLS entirely.  Certificate validation is never required. -/
theorem c4_tls_posture (e : String) :
    usesTls (poolSsl "production") = true ∧
    poolSsl "production" = some { rejectUnauthorized := false } ∧
    (e ≠ "production" → poolSsl e = none) ∧
    requiresCertValidation (poolSsl e) = false := by
  refine ⟨by decide, by decide, ?_, ?_⟩
  · intro h
    simp [poolSsl, h]
  · by_cases h : e = "production" <;>
      simp [poolSsl, requiresCertValidation, h]

/-- Witness for C4 at the non-production value "development". -/
theorem c4_witness :
    poolSsl "development" = none ∧
    requiresCertValidation (poolSsl "development") = false :=
  ⟨(c4_tls_posture "development").2.2.1 (by decide),
   (c4_tls_posture "development").2.2.2⟩

/-- Helper: the `GET /api/tasks` handler always issues exactly the one
fixed select statement. -/
theorem runGetTasks_trace
    (exec : String → List (Option String) → Except String (List Task)) :
    (runGetTasks exec).2 = [(getTasksStatement, [])] := by
  cases h : exec getTasksStatement [] <;> simp [runGetTasks, h]

/-- Helper: the `POST /api/tasks` handler always issues exactly the one
fixed insert statement with the body's `[title, description]` bound. -/
theorem runPostTasks_trace
    (exec : String → List (Option String) → Except String (List Task))
    (body : RequestBody) :
    (runPostTasks exec body).2 = [(postTasksStatement, postTasksParams body)] := by
  cases h : exec postTasksStatement (postTasksParams body) <;>
    simp [runPostTasks, h]

/-- C5: each of the two route handlers issues exactly one statement per
request (no retry), and when the store fails with message `m` the response
is HTTP 500 with body carrying the raw, unredacted message `m`. -/
theorem c5_no_retry_raw_error
    (exec : String → List (Option String) → Except String (List Task))
    (body : RequestBody) (m : String) :
    (runGetTasks exec).2.length = 1 ∧
    (runPostTasks exec body).2.length = 1 ∧
    (exec getTasksStatement [] = .error m →
      (runGetTasks exec).1 = { status := 500, body := .error m }) ∧
    (exec postTasksStatement (postTasksParams body) = .error m →
      (runPostTasks exec body).1 = { status := 500, body := .error m }) := by
  refine ⟨?_, ?_, ?_, ?_⟩
  · rw [runGetTasks_trace]; rfl
  · rw [runPostTasks_trace]; rfl
  · intro h; simp [runGetTasks, h]
  · intro h; simp [runPostTasks, h]

/-- A store in which every statement fails with a fixed message. -/
def failingExec : String → List (Option String) → Except String (List Task) :=
  fun _ _ => .error "connection refused"

/-- Witness for C5 against the always-failing store. -/
theorem c5_witness :
    (runGetTasks failingExec).1 = { status := 500, body := .error "connection refused" } ∧
    (runPostTasks failingExec ⟨some "A", none, []⟩).1
      = { status := 500, body := .error "connection refused" } ∧
    (runGetTasks failingExec).2.length = 1 :=
  ⟨(c5_no_retry_raw_error failingExec ⟨some "A", none, []⟩ "connection refused").2.2.1 rfl,
   (c5_no_retry_raw_error failingExec ⟨some "A", none, []⟩ "connection refused").2.2.2 rfl,
   (c5_no_retry_raw_error failingExec ⟨some "A", none, []⟩ "connection refused").1⟩

/-- C6: whatever the outcome of the startup `createTablesQuery` statement,
the HTTP listener starts, no error is propagated to any caller, and a
failure is only logged (with the `Database setup error:` prefix). -/
theorem c6_init_failure_swallowed (r : Except String Unit) :
    (boot r).listenerStarted = true ∧
    (boot r).propagatedError = none ∧
    (∀ e, r = .error e → ("Database setup error: " ++ e) ∈ (boot r).logs) := by
  refine ⟨rfl, rfl, ?_⟩
  intro e h
  subst h
  simp [boot]

/-- Witness for C6 at a concrete failed initialization. -/
theorem c6_witness :
    ("Database setup error: " ++ "db down") ∈ (boot (.error "db down")).logs :=
  (c6_init_failure_swallowed (.error "db down")).2.2 "db down" rfl

/-- C8: running the schema-ensure statement twice from any store state
produces no error either time, the second run changes nothing, and when the
table already existed its state (all rows included) survives unchanged. -/
theorem c8_ensureSchema_idempotent (db : DbState) :
    ∃ db1, runCreateTablesQuery db = .ok db1 ∧
      ∃ db2, runCreateTablesQuery db1 = .ok db2 ∧
        db2 = db1 ∧
        ∀ t : TableState, db = some t → db1 = some t := by
  cases db with
  | none =>
    exact ⟨some freshTable, rfl, some freshTable, rfl, rfl, fun t h => by cases h⟩
  | some t =>
    exact ⟨some t, rfl, some t, rfl, rfl, fun t2 h => by cases h; rfl⟩

/-- Witness for C8 at a table holding one row: the schema-ensure statement
succeeds and preserves the row. -/
theorem c8_witness :
    runCreateTablesQuery (some ⟨[⟨1, "A", none, false, 0⟩], 2⟩)
      = .ok (some ⟨[⟨1, "A", none, false, 0⟩], 2⟩) := by
  obtain ⟨db1, h1, db2, h2, h3, h4⟩ :=
    c8_ensureSchema_idempotent (some ⟨[⟨1, "A", none, false, 0⟩], 2⟩)
  rw [h4 ⟨[⟨1, "A", none, false, 0⟩], 2⟩ rfl] at h1
  exact h1

/-- C9: the `POST /api/tasks` handler reads only `title` and `description`
from the request body: two bodies agreeing on those two fields produce the
same response, the same resulting table state, and the same bound parameter
vector, whatever extra members (`id`, `completed`, `created_at`, ...) they
carry. -/
theorem c9_depends_only_on_title_description (db : TableState) (now : Nat)
    (b1 b2 : RequestBody) (ht : b1.title = b2.title)
    (hd : b1.description = b2.description) :
    createTask db now b1 = createTask db now b2 ∧
    postTasksParams b1 = postTasksParams b2 := by
  constructor
  · simp [createTask, insertTask, ht, hd]
  · simp [postTasksParams, ht, hd]

/-- Witness for C9: a body smuggling `id` and `completed` members behaves
exactly as the plain body with the same title and description. -/
theorem c9_witness :
    createTask freshTable 3
        ⟨some "T", some "D", [("id", "99"), ("completed", "true")]⟩
      = createTask freshTable 3 ⟨some "T", some "D", []⟩ :=
  (c9_depends_only_on_title_description freshTable 3
      ⟨some "T", some "D", [("id", "99"), ("completed", "true")]⟩
      ⟨some "T", some "D", []⟩ rfl rfl).1

/-- C10: the statement texts issued by the two handlers are the fixed
constants `getTasksStatement` and `postTasksStatement` whatever the store
and request body; the body only reaches the store inside the bound
parameter vector `[title, description]`. -/
theorem c10_statement_text_constant
    (exec : String → List (Option String) → Except String (List Task))
    (body : RequestBody) :
    (runGetTasks exec).2.map Prod.fst = [getTasksStatement] ∧
    (runPostTasks exec body).2.map Prod.fst = [postTasksStatement] ∧
    (runPostTasks exec body).2.map Prod.snd = [[body.title, body.description]] := by
  refine ⟨?_, ?_, ?_⟩
  · rw [runGetTasks_trace]; rfl
  · rw [runPostTasks_trace]; rfl
  · rw [runPostTasks_trace]; simp [postTasksParams]

/-- C1: after `createTask` with a valid non-empty title on a well-formed
table, every valid `listTasks` result contains a Task whose `title` and
`description` equal the inputs and whose `id` differs from the id of every
previously created task. -/
theorem c1_create_then_list (db : TableState) (now : Nat) (title : String)
    (desc : Option String) (extra : List (String × String)) (out : List Task)
    (hwf : WF db) (hne : title ≠ "") (hlen : title.length ≤ 255)
    (hout : listTasksOutput (createTask db now ⟨some title, desc, extra⟩).2 out) :
    ∃ t ∈ out, t.title = title ∧ t.description = desc ∧
      ∀ r ∈ db.rows, t.id ≠ r.id := by
  have hcr := createTask_eq_of_valid db now ⟨some title, desc, extra⟩ title rfl hlen
  rw [hcr] at hout
  obtain ⟨hperm, _⟩ := hout
  refine ⟨{ id := db.nextId, title := title, description := desc,
            completed := false, created_at := now }, ?_, rfl, rfl, ?_⟩
  · exact hperm.mem_iff.mpr (by simp)
  · intro r hr
    exact (hwf.1 r hr).ne'

/-- A table holding one previously created task, used as a witness state. -/
def dbOne : TableState := { rows := [⟨1, "A", none, false, 0⟩], nextId := 2 }

/-- Witness for C1: creating "B" at clock 5 on `dbOne` and listing with the
(unique) sorted result `[B, A]` exhibits the created task with a fresh id. -/
theorem c1_witness :
    ∃ t ∈ [(⟨2, "B", none, false, 5⟩ : Task), ⟨1, "A", none, false, 0⟩],
      t.title = "B" ∧ t.description = none ∧ ∀ r ∈ dbOne.rows, t.id ≠ r.id :=
  c1_create_then_list dbOne 5 "B" none []
    [⟨2, "B", none, false, 5⟩, ⟨1, "A", none, false, 0⟩]
    (by decide) (by decide) (by decide) (by decide)

/-- C2 amended: every valid `GET /api/tasks` result is the full row set (no
pagination) and respects `created_at` descending for strict timestamp
differences: when T1's `created_at` is strictly below T2's, T2 appears
before T1.  (Rows with equal `created_at` may come back in any order: the
statement has no tiebreaker — see the counterexample.) -/
theorem c2_list_order (db : TableState) (out : List Task)
    (hout : listTasksOutput db out) :
    out.length = db.rows.length ∧
    (∀ t : Task, t ∈ db.rows ↔ t ∈ out) ∧
    ∀ t1 t2 : Task, t1 ∈ db.rows → t2 ∈ db.rows →
      t1.created_at < t2.created_at →
      ∃ i j : Fin out.length, i < j ∧ out.get i = t2 ∧ out.get j = t1 := by
  obtain ⟨hperm, hsort⟩ := hout
  refine ⟨hperm.length_eq, fun t => hperm.mem_iff.symm, ?_⟩
  intro t1 t2 h1 h2 hlt
  obtain ⟨j, hj⟩ := List.mem_iff_get.mp (hperm.mem_iff.mpr h1)
  obtain ⟨i, hi⟩ := List.mem_iff_get.mp (hperm.mem_iff.mpr h2)
  refine ⟨i, j, ?_, hi, hj⟩
  rcases lt_trichotomy i j with h | h | h
  · exact h
  · exfalso
    rw [h, hj] at hi
    rw [hi] at hlt
    exact lt_irrefl _ hlt
  · exfalso
    have hp : t2.created_at ≤ t1.created_at := by
      have := List.pairwise_iff_get.mp hsort j i h
      rw [hi, hj] at this
      exact this
    exact absurd hlt (Nat.not_lt.mpr hp)

/-- Witness for C2 (amended) at a table with two rows of distinct
timestamps and its sorted listing. -/
theorem c2_witness :
    ∃ i j : Fin 2, i < j ∧
      [(⟨2, "B", none, false, 5⟩ : Task), ⟨1, "A", none, false, 0⟩].get i
        = ⟨2, "B", none, false, 5⟩ ∧
      [(⟨2, "B", none, false, 5⟩ : Task), ⟨1, "A", none, false, 0⟩].get j
        = ⟨1, "A", none, false, 0⟩ :=
  (c2_list_order { rows := [⟨1, "A", none, false, 0⟩, ⟨2, "B", none, false, 5⟩], nextId := 3 }
      [⟨2, "B", none, false, 5⟩, ⟨1, "A", none, false, 0⟩] (by decide)).2.2
    ⟨1, "A", none, false, 0⟩ ⟨2, "B", none, false, 5⟩
    (by decide) (by decide) (by decide)

/-- The table produced by creating "A" and then "B" at the same clock value
5 (the store clock has finite resolution, so consecutive inserts can share
a `created_at`). -/
def dbTie : TableState :=
  (createTask (createTask freshTable 5 ⟨some "A", none, []⟩).2
    5 ⟨some "B", none, []⟩).2

/-- The first task of `dbTie`: created first. -/
def taskA5 : Task := ⟨1, "A", none, false, 5⟩

/-- The second task of `dbTie`: created second, same `created_at`. -/
def taskB5 : Task := ⟨2, "B", none, false, 5⟩

/-- C2 counterexample: in the reachable state `dbTie` (task A created
before task B, equal `created_at`), the listing `[A, B]` is a valid result
of `SELECT * FROM tasks ORDER BY created_at DESC` — the statement has no
tiebreaker, so equal timestamps may come back in any order — yet the later
task B does not appear before the earlier task A, refuting the claim that
for every pair created-in-order the newer one appears first. -/
theorem c2_counterexample :
    listTasksOutput dbTie [taskA5, taskB5] ∧
    taskA5 ∈ dbTie.rows ∧ taskB5 ∈ dbTie.rows ∧ taskA5.id < taskB5.id ∧
    ¬ ∃ i j : Fin 2, i < j ∧ [taskA5, taskB5].get i = taskB5 ∧
        [taskA5, taskB5].get j = taskA5 := by
  decide

/-- C7 counterexample: `createTask` with the empty-string title is accepted
by the store (`VARCHAR(255) NOT NULL` only rejects NULL), answers 201, and
persists a Task whose title is empty — refuting the claim that every
persisted Task has a non-empty title. -/
theorem c7_counterexample :
    (createTask freshTable 0 ⟨some "", none, []⟩).1.status = 201 ∧
    (⟨1, "", none, false, 0⟩ : Task) ∈ (createTask freshTable 0 ⟨some "", none, []⟩).2.rows ∧
    (⟨1, "", none, false, 0⟩ : Task).title.length = 0 := by
  decide

/-- C7 amended: `createTask` preserves the table invariant — pairwise
distinct ids, all ids below the SERIAL sequence, every title non-NULL (by
type) and within the VARCHAR(255) bound — and a NULL/absent title is always
rejected by the NOT NULL constraint (500, table unchanged).  Titles may,
however, be empty strings. -/
theorem c7_invariant (db : TableState) (now : Nat) (body : RequestBody)
    (h : WF db) :
    WF (createTask db now body).2 ∧
    (body.title = none →
      (createTask db now body).1 = { status := 500, body := .error notNullViolationMsg } ∧
      (createTask db now body).2 = db) := by
  cases ht : body.title with
  | none =>
    constructor
    · simpa [createTask, insertTask, ht] using h
    · intro _
      constructor <;> simp [createTask, insertTask, ht]
  | some t =>
    constructor
    · by_cases hl : 255 < t.length
      · simpa [createTask, insertTask, ht, hl] using h
      · have hcr := createTask_eq_of_valid db now body t ht (Nat.not_lt.mp hl)
        rw [hcr]
        refine ⟨?_, ?_, ?_⟩
        · intro r hr
          rcases List.mem_append.mp hr with hr | hr
          · exact Nat.lt_succ_of_lt (h.1 r hr)
          · simp at hr
            subst hr
            exact Nat.lt_succ_self _
        · refine List.pairwise_append.mpr ⟨h.2.1, List.pairwise_singleton _ _, ?_⟩
          intro a ha b hb
          simp at hb
          subst hb
          exact (h.1 a ha).ne
        · intro r hr
          rcases List.mem_append.mp hr with hr | hr
          · exact h.2.2 r hr
          · simp at hr
            subst hr
            exact Nat.not_lt.mp hl
    · intro hnone
      exact Option.noConfusion hnone

/-- Witness for C7: the invariant holds after inserting into the fresh
table, and a NULL title is rejected there with the table unchanged. -/
theorem c7_witness :
    WF (createTask freshTable 4 ⟨some "T", none, []⟩).2 ∧
    ((createTask freshTable 0 ⟨none, some "d", []⟩).1
        = { status := 500, body := .error notNullViolationMsg } ∧
      (createTask freshTable 0 ⟨none, some "d", []⟩).2 = freshTable) :=
  ⟨(c7_invariant freshTable 4 ⟨some "T", none, []⟩ wf_freshTable).1,
   (c7_invariant freshTable 0 ⟨none, some "d", []⟩ wf_freshTable).2 rfl⟩

end TaskManager
